import Mathlib

/-
Verification development for the sp1-aptos light-client entry programs.

The repository contains two zkVM entry programs,
src/programs/inclusion/src/main.rs and src/programs/epoch-change/src/main.rs,
plus driver scripts under src/script.  Each entry program reads a fixed
sequence of inputs from its input stream, runs a linear chain of
deserialization and verification calls into the aptos-lc-core collaborator
crate, and, if every call succeeds, commits a fixed sequence of 32-byte
public values.  Any failing call aborts the program (the source uses expect
and explicit aborts) before any value is committed.

The embedding below translates the two entry programs directly from the
source.  The aptos-lc-core operations they call (deserializers, hashing,
signature verification, accumulator verification, sparse Merkle
verification, epoch ratcheting) are not part of this repository's sources;
they are collected in the Env interface structure, at exactly the
granularity the entry programs use them, and the theorems quantify over
every implementation of that interface.  Each run is modelled as a trace of
attempted steps, an outcome (success or the specific abort), and the list
of committed byte strings.
-/

/-- Byte strings, the content of the length-prefixed input buffers and of
the committed public values. -/
abbrev Bytes : Type := List Nat

/-- Fixed-width 32-byte digests.  In aptos-lc-core this is HashValue; the
spec (section 3) makes every digest exactly 32 bytes wide.  The source's
as_ref conversion to a byte slice is the val projection here. -/
abbrev HashValue : Type := {l : List Nat // l.length = 32}

/-- Modelled from the spec: HashValue::from_slice of the aptos-lc-core
collaborator crate is not under src/.  Per the data-model invariant of
section 3 (every digest is a fixed-width 32-byte value) it succeeds exactly
when the given slice is 32 bytes long, returning that slice as a digest. -/
def HashValue.from_slice (l : Bytes) : Option HashValue :=
  if h : l.length = 32 then some ⟨l, h⟩ else none

/-- Validator committee: ordered (public key, voting power) pairs
(spec section 3, ValidatorCommittee). -/
structure ValidatorVerifier where
  validator_infos : List (Bytes × Nat)
deriving DecidableEq

/-- Epoch state: a committee together with the epoch it governs.  The
source accesses its committee through the verifier method. -/
structure EpochState where
  epoch : Nat
  verifier : ValidatorVerifier
deriving DecidableEq

/-- Trusted state: tagged union over a version-only waypoint and an
epoch-anchored state (spec section 3, TrustedState). -/
inductive TrustedState where
  | waypoint (version : Nat)
  | epochState (waypoint : Nat) (epoch_state : EpochState)
deriving DecidableEq

/-- Ledger header: the fields the entry programs read are the
transaction-accumulator root hash, the block identifier and the optional
next-epoch committee (spec section 3, LedgerInfoWithSignatures). -/
structure LedgerInfo where
  epoch : Nat
  version : Nat
  transaction_accumulator_hash : HashValue
  block_id : HashValue
  next_epoch_state : Option EpochState
deriving DecidableEq

/-- Ledger header plus the committee-member signatures over it. -/
structure LedgerInfoWithSignatures where
  ledger_info : LedgerInfo
  signatures : List (Nat × Bytes)
deriving DecidableEq

/-- Record of one executed transaction; the inclusion program reads its
optional state-checkpoint digest through the state_checkpoint method. -/
structure TransactionInfo where
  data : Bytes
  state_checkpoint : Option HashValue
deriving DecidableEq

/-- Sibling path of a transaction-accumulator membership proof. -/
structure TransactionAccumulatorProof where
  siblings : List HashValue
deriving DecidableEq

/-- Sparse Merkle proof: optional leaf and sibling path. -/
structure SparseMerkleProof where
  leaf : Option (HashValue × HashValue)
  siblings : List HashValue
deriving DecidableEq

/-- Ordered sequence of signed ledger headers attesting successive epoch
transitions (spec section 3, EpochChangeProof). -/
structure EpochChangeProof where
  ledger_info_with_sigs : List LedgerInfoWithSignatures
deriving DecidableEq

/-- Result of ratcheting: only the epoch arm carries the last applied
signed ledger header (spec section 3, TrustedStateChange). -/
inductive TrustedStateChange where
  | epoch (new_state : TrustedState) (latest_epoch_change_li : LedgerInfoWithSignatures)
  | version (new_state : TrustedState)
deriving DecidableEq

/-- Interface to the aptos-lc-core collaborator crate (spec section 6),
at exactly the granularity the two entry programs call it: byte-level
deserializers for the domain types, content hashing, the three verifiers
and the epoch ratchet.  The crate itself is not part of this repository's
sources, so its behavior is left fully abstract: every theorem below holds
for every implementation of this interface. -/
structure Env where
  validatorVerifierFromBytes : Bytes → Option ValidatorVerifier
  transactionInfoFromBytes : Bytes → Option TransactionInfo
  transactionAccumulatorProofFromBytes : Bytes → Option TransactionAccumulatorProof
  ledgerInfoWithSignaturesFromBytes : Bytes → Option LedgerInfoWithSignatures
  sparseMerkleProofFromBytes : Bytes → Option SparseMerkleProof
  trustedStateFromBytes : Bytes → Option TrustedState
  epochChangeProofFromBytes : Bytes → Option EpochChangeProof
  validatorVerifierHash : ValidatorVerifier → HashValue
  transactionInfoHash : TransactionInfo → HashValue
  accumulatorVerify : TransactionAccumulatorProof → HashValue → HashValue → Nat → Bool
  verifySignatures : LedgerInfoWithSignatures → ValidatorVerifier → Bool
  sparseVerifyByHash : SparseMerkleProof → HashValue → HashValue → HashValue → Option HashValue
  verifyAndRatchetInner : TrustedState → EpochChangeProof → Option TrustedStateChange

/-- Outcome of a run: success, or the specific abort the program hit. -/
inductive Outcome (ε : Type) where
  | ok
  | error (e : ε)
deriving DecidableEq

/-- Result of one run of an entry program: the trace of attempted steps in
order, the outcome, and the committed public values (each a byte string). -/
structure RunResult (σ ε : Type) where
  trace : List σ
  outcome : Outcome ε
  output : List Bytes
deriving DecidableEq

/-- Steps of the inclusion entry program, in source order. -/
inductive Step where
  | deserCommittee
  | deserTransaction
  | deserAccumulatorProof
  | deserLedgerInfo
  | verifyAccumulator
  | verifySignatures
  | deserSparseProof
  | getStateCheckpoint
  | keyFromSlice
  | valueFromSlice
  | verifySparse
deriving DecidableEq

/-- Aborts of the inclusion entry program, one per expect in the source. -/
inductive InclusionError where
  | validatorVerifierDeser
  | transactionInfoDeser
  | accumulatorProofDeser
  | ledgerInfoDeser
  | accumulatorVerifyFailed
  | signatureVerifyFailed
  | sparseProofDeser
  | stateCheckpointMissing
  | keyFromSliceFailed
  | leafValueHashFromSliceFailed
  | sparseVerifyFailed
deriving DecidableEq

/-- Fully materialized input stream of the inclusion entry program, in the
order the source reads it: sparse proof bytes, the key and leaf value hash
as fixed 32-byte arrays, transaction bytes, transaction index, accumulator
proof bytes, ledger info bytes, and the verified committee bytes. -/
structure InclusionInput where
  sparse_merkle_proof_bytes : Bytes
  key : HashValue
  leaf_value_hash : HashValue
  transaction_bytes : Bytes
  transaction_index : Nat
  transaction_proof_bytes : Bytes
  ledger_info_bytes : Bytes
  verified_validator_verifier : Bytes

/-- Trace of a complete run of the inclusion entry program. -/
def Inclusion.fullTrace : List Step :=
  [Step.deserCommittee, Step.deserTransaction, Step.deserAccumulatorProof,
   Step.deserLedgerInfo, Step.verifyAccumulator, Step.verifySignatures,
   Step.deserSparseProof, Step.getStateCheckpoint, Step.keyFromSlice,
   Step.valueFromSlice, Step.verifySparse]

/-- Translation of the main function of src/programs/inclusion/src/main.rs:
deserialize the committee, the transaction, the accumulator proof and the
signed ledger header; verify the transaction hash against the accumulator
root read from the ledger header; verify the header's signatures against
the committee; deserialize the sparse proof, extract the state checkpoint,
rebuild the key and value digests, verify the sparse proof; then commit the
committee hash, the reconstructed root, the block id, the key and the leaf
value hash.  Every expect of the source is an error arm here. -/
def Inclusion.main (env : Env) (i : InclusionInput) :
    RunResult Step InclusionError :=
  match env.validatorVerifierFromBytes i.verified_validator_verifier with
  | none => ⟨[Step.deserCommittee], Outcome.error InclusionError.validatorVerifierDeser, []⟩
  | some validator_verifier =>
  match env.transactionInfoFromBytes i.transaction_bytes with
  | none => ⟨[Step.deserCommittee, Step.deserTransaction],
             Outcome.error InclusionError.transactionInfoDeser, []⟩
  | some transaction =>
  match env.transactionAccumulatorProofFromBytes i.transaction_proof_bytes with
  | none => ⟨[Step.deserCommittee, Step.deserTransaction, Step.deserAccumulatorProof],
             Outcome.error InclusionError.accumulatorProofDeser, []⟩
  | some transaction_proof =>
  match env.ledgerInfoWithSignaturesFromBytes i.ledger_info_bytes with
  | none => ⟨[Step.deserCommittee, Step.deserTransaction, Step.deserAccumulatorProof,
              Step.deserLedgerInfo],
             Outcome.error InclusionError.ledgerInfoDeser, []⟩
  | some latest_li =>
  if env.accumulatorVerify transaction_proof
      latest_li.ledger_info.transaction_accumulator_hash
      (env.transactionInfoHash transaction) i.transaction_index then
    if env.verifySignatures latest_li validator_verifier then
      match env.sparseMerkleProofFromBytes i.sparse_merkle_proof_bytes with
      | none => ⟨[Step.deserCommittee, Step.deserTransaction, Step.deserAccumulatorProof,
                  Step.deserLedgerInfo, Step.verifyAccumulator, Step.verifySignatures,
                  Step.deserSparseProof],
                 Outcome.error InclusionError.sparseProofDeser, []⟩
      | some sparse_merkle_proof =>
      match transaction.state_checkpoint with
      | none => ⟨[Step.deserCommittee, Step.deserTransaction, Step.deserAccumulatorProof,
                  Step.deserLedgerInfo, Step.verifyAccumulator, Step.verifySignatures,
                  Step.deserSparseProof, Step.getStateCheckpoint],
                 Outcome.error InclusionError.stateCheckpointMissing, []⟩
      | some sparse_expected_root_hash =>
      match HashValue.from_slice i.key.val with
      | none => ⟨[Step.deserCommittee, Step.deserTransaction, Step.deserAccumulatorProof,
                  Step.deserLedgerInfo, Step.verifyAccumulator, Step.verifySignatures,
                  Step.deserSparseProof, Step.getStateCheckpoint, Step.keyFromSlice],
                 Outcome.error InclusionError.keyFromSliceFailed, []⟩
      | some key_hash =>
      match HashValue.from_slice i.leaf_value_hash.val with
      | none => ⟨[Step.deserCommittee, Step.deserTransaction, Step.deserAccumulatorProof,
                  Step.deserLedgerInfo, Step.verifyAccumulator, Step.verifySignatures,
                  Step.deserSparseProof, Step.getStateCheckpoint, Step.keyFromSlice,
                  Step.valueFromSlice],
                 Outcome.error InclusionError.leafValueHashFromSliceFailed, []⟩
      | some value_hash =>
      match env.sparseVerifyByHash sparse_merkle_proof sparse_expected_root_hash
              key_hash value_hash with
      | none => ⟨Inclusion.fullTrace, Outcome.error InclusionError.sparseVerifyFailed, []⟩
      | some reconstructed_root_hash =>
        ⟨Inclusion.fullTrace, Outcome.ok,
         [(env.validatorVerifierHash validator_verifier).val,
          reconstructed_root_hash.val,
          latest_li.ledger_info.block_id.val,
          i.key.val,
          i.leaf_value_hash.val]⟩
    else ⟨[Step.deserCommittee, Step.deserTransaction, Step.deserAccumulatorProof,
           Step.deserLedgerInfo, Step.verifyAccumulator, Step.verifySignatures],
          Outcome.error InclusionError.signatureVerifyFailed, []⟩
  else ⟨[Step.deserCommittee, Step.deserTransaction, Step.deserAccumulatorProof,
         Step.deserLedgerInfo, Step.verifyAccumulator],
        Outcome.error InclusionError.accumulatorVerifyFailed, []⟩

/-- Driver-side root comparison from src/script/src/bin/inclusion.rs: after
the program has run, the driver reads the committed state root and asserts
it equals the expected state checkpoint hash.  This comparison happens
outside the entry program. -/
def driverRootCheck (merkle_root_slice : Bytes) (state_checkpoint_hash : Bytes) : Bool :=
  merkle_root_slice == state_checkpoint_hash

/-- Steps of the epoch-change entry program, in source order. -/
inductive EStep where
  | deserTrustedState
  | deserEpochChangeProof
  | ratchet
  | extractNewCommittee
  | extractPrevCommittee
deriving DecidableEq

/-- Aborts of the epoch-change entry program, one per expect or explicit
abort arm of the source. -/
inductive EpochError where
  | trustedStateDeser
  | epochChangeProofDeser
  | ratchetFailed
  | expectedEpochChange
  | expectedEpochState
  | expectedEpochStateForTrusted
deriving DecidableEq

/-- Input stream of the epoch-change entry program: the trusted state bytes
and the epoch change proof bytes. -/
structure EpochChangeInput where
  trusted_state_bytes : Bytes
  epoch_change_proof_bytes : Bytes

/-- Trace of a complete run of the epoch-change entry program. -/
def EpochChange.fullTrace : List EStep :=
  [EStep.deserTrustedState, EStep.deserEpochChangeProof, EStep.ratchet,
   EStep.extractNewCommittee, EStep.extractPrevCommittee]

/-- Translation of the main function of
src/programs/epoch-change/src/main.rs: deserialize the trusted state and
the epoch change proof, ratchet, require an epoch change carrying a
next-epoch state, require the input trusted state to be the epoch-anchored
arm, then commit the previous committee's hash followed by the new
committee's hash. -/
def EpochChange.main (env : Env) (i : EpochChangeInput) :
    RunResult EStep EpochError :=
  match env.trustedStateFromBytes i.trusted_state_bytes with
  | none => ⟨[EStep.deserTrustedState], Outcome.error EpochError.trustedStateDeser, []⟩
  | some trusted_state =>
  match env.epochChangeProofFromBytes i.epoch_change_proof_bytes with
  | none => ⟨[EStep.deserTrustedState, EStep.deserEpochChangeProof],
             Outcome.error EpochError.epochChangeProofDeser, []⟩
  | some epoch_change_proof =>
  match env.verifyAndRatchetInner trusted_state epoch_change_proof with
  | none => ⟨[EStep.deserTrustedState, EStep.deserEpochChangeProof, EStep.ratchet],
             Outcome.error EpochError.ratchetFailed, []⟩
  | some trusted_state_change =>
  match trusted_state_change with
  | TrustedStateChange.version _ =>
      ⟨[EStep.deserTrustedState, EStep.deserEpochChangeProof, EStep.ratchet,
        EStep.extractNewCommittee],
       Outcome.error EpochError.expectedEpochChange, []⟩
  | TrustedStateChange.epoch _ latest_epoch_change_li =>
  match latest_epoch_change_li.ledger_info.next_epoch_state with
  | none => ⟨[EStep.deserTrustedState, EStep.deserEpochChangeProof, EStep.ratchet,
              EStep.extractNewCommittee],
             Outcome.error EpochError.expectedEpochState, []⟩
  | some next_epoch_state =>
  let validator_verifier_hash := env.validatorVerifierHash next_epoch_state.verifier
  match trusted_state with
  | TrustedState.waypoint _ =>
      ⟨[EStep.deserTrustedState, EStep.deserEpochChangeProof, EStep.ratchet,
        EStep.extractNewCommittee, EStep.extractPrevCommittee],
       Outcome.error EpochError.expectedEpochStateForTrusted, []⟩
  | TrustedState.epochState _ epoch_state =>
      ⟨EpochChange.fullTrace, Outcome.ok,
       [(env.validatorVerifierHash epoch_state.verifier).val,
        validator_verifier_hash.val]⟩

/-
Concrete sample data, used to evaluate the entry programs on closed inputs.
-/

/-- Digest of 32 zero bytes. -/
def hash0 : HashValue := ⟨List.replicate 32 0, by simp⟩

/-- Digest of 32 one bytes. -/
def hash1 : HashValue := ⟨List.replicate 32 1, by simp⟩

/-- Digest of 32 two bytes. -/
def hash2 : HashValue := ⟨List.replicate 32 2, by simp⟩

/-- Sample committee A. -/
def sampleVerifier : ValidatorVerifier := ⟨[([7], 1)]⟩

/-- Sample committee B. -/
def sampleVerifierB : ValidatorVerifier := ⟨[([8], 2)]⟩

/-- Sample epoch state for committee A. -/
def sampleEpochState : EpochState := ⟨1, sampleVerifier⟩

/-- Sample epoch state for committee B. -/
def sampleEpochStateB : EpochState := ⟨2, sampleVerifierB⟩

/-- Sample ledger header declaring committee B as next. -/
def sampleLedgerInfo : LedgerInfo := ⟨1, 10, hash0, hash1, some sampleEpochStateB⟩

/-- Sample signed ledger header declaring committee B as next. -/
def sampleLI : LedgerInfoWithSignatures := ⟨sampleLedgerInfo, []⟩

/-- Sample signed ledger header declaring no next-epoch state. -/
def sampleLINoNext : LedgerInfoWithSignatures := ⟨⟨1, 10, hash0, hash1, none⟩, []⟩

/-- Sample transaction record carrying a state checkpoint. -/
def sampleTransaction : TransactionInfo := ⟨[3], some hash0⟩

/-- Sample transaction record carrying no state checkpoint. -/
def sampleTransactionNoCp : TransactionInfo := ⟨[3], none⟩

/-- Environment in which every collaborator call succeeds. -/
def envOK : Env where
  validatorVerifierFromBytes := fun _ => some sampleVerifier
  transactionInfoFromBytes := fun _ => some sampleTransaction
  transactionAccumulatorProofFromBytes := fun _ => some ⟨[]⟩
  ledgerInfoWithSignaturesFromBytes := fun _ => some sampleLI
  sparseMerkleProofFromBytes := fun _ => some ⟨none, []⟩
  trustedStateFromBytes := fun _ => some (TrustedState.epochState 0 sampleEpochState)
  epochChangeProofFromBytes := fun _ => some ⟨[sampleLI]⟩
  validatorVerifierHash := fun _ => hash1
  transactionInfoHash := fun _ => hash0
  accumulatorVerify := fun _ _ _ _ => true
  verifySignatures := fun _ _ => true
  sparseVerifyByHash := fun _ _ _ _ => some hash2
  verifyAndRatchetInner := fun _ _ =>
    some (TrustedStateChange.epoch (TrustedState.epochState 1 sampleEpochStateB) sampleLI)

/-- Environment in which the first deserialization of each program fails. -/
def envDeserFail : Env :=
  { envOK with
    validatorVerifierFromBytes := fun _ => none
    trustedStateFromBytes := fun _ => none }

/-- Environment in which the trusted state deserializes to a waypoint. -/
def envWaypoint : Env :=
  { envOK with trustedStateFromBytes := fun _ => some (TrustedState.waypoint 5) }

/-- Environment in which the transaction carries no state checkpoint. -/
def envNoCp : Env :=
  { envOK with transactionInfoFromBytes := fun _ => some sampleTransactionNoCp }

/-- Environment in which ratcheting yields an epoch change whose last
applied ledger header declares no next-epoch state. -/
def envNoNext : Env :=
  { envOK with
    verifyAndRatchetInner := fun _ _ =>
      some (TrustedStateChange.epoch (TrustedState.epochState 1 sampleEpochStateB)
        sampleLINoNext) }

/-- Sample inclusion input stream. -/
def sampleInclusionInput : InclusionInput := ⟨[1], hash0, hash1, [2], 0, [3], [4], [5]⟩

/-- Sample epoch-change input stream. -/
def sampleEpochInput : EpochChangeInput := ⟨[1], [2]⟩

/-
Helper lemmas shared by the claim theorems.
-/

/-- Rebuilding a digest from its own 32 bytes always succeeds. -/
lemma from_slice_val (b : HashValue) : HashValue.from_slice b.val = some b := by
  unfold HashValue.from_slice
  rw [dif_pos b.property]


/-- C4: for every input trusted state of the EpochState variant with
committee A, and every epoch-change proof for which the ratchet succeeds
with an epoch change whose last applied ledger header declares committee B
as next, the epoch-change entry program succeeds and commits exactly two
32-byte values in order: the hash of A, then the hash of B. -/
theorem epoch_change_public_values (env : Env) (i : EpochChangeInput)
    (wp : Nat) (es : EpochState) (proof : EpochChangeProof) (ts' : TrustedState)
    (li : LedgerInfoWithSignatures) (next_es : EpochState)
    (h1 : env.trustedStateFromBytes i.trusted_state_bytes =
      some (TrustedState.epochState wp es))
    (h2 : env.epochChangeProofFromBytes i.epoch_change_proof_bytes = some proof)
    (h3 : env.verifyAndRatchetInner (TrustedState.epochState wp es) proof =
      some (TrustedStateChange.epoch ts' li))
    (h4 : li.ledger_info.next_epoch_state = some next_es) :
    (EpochChange.main env i).outcome = Outcome.ok ∧
    (EpochChange.main env i).output =
      [(env.validatorVerifierHash es.verifier).val,
       (env.validatorVerifierHash next_es.verifier).val] ∧
    (EpochChange.main env i).output.length = 2 ∧
    ∀ b ∈ (EpochChange.main env i).output, b.length = 32 := by
  have hmain : EpochChange.main env i =
      ⟨EpochChange.fullTrace, Outcome.ok,
       [(env.validatorVerifierHash es.verifier).val,
        (env.validatorVerifierHash next_es.verifier).val]⟩ := by
    simp only [EpochChange.main, h1, h2, h3, h4]
  rw [hmain]
  refine ⟨rfl, rfl, rfl, ?_⟩
  intro b hb
  simp only [List.mem_cons, List.not_mem_nil, or_false] at hb
  rcases hb with h | h <;> rw [h] <;> exact (env.validatorVerifierHash _).property

/-- Witness for C4 at a concrete environment and input. -/
theorem epoch_change_public_values_witness :
    (EpochChange.main envOK sampleEpochInput).outcome = Outcome.ok :=
  (epoch_change_public_values envOK sampleEpochInput 0 sampleEpochState
    ⟨[sampleLI]⟩ (TrustedState.epochState 1 sampleEpochStateB) sampleLI
    sampleEpochStateB rfl rfl rfl rfl).1

/-- C5: for every input whose trusted state deserializes to anything other
than the EpochState variant, the epoch-change entry program aborts and
commits nothing; moreover, on the path where everything else would have
succeeded, the abort is the dedicated wrong-trusted-state-variant error. -/
theorem epoch_change_rejects_non_epoch (env : Env) (i : EpochChangeInput)
    (ts : TrustedState)
    (h1 : env.trustedStateFromBytes i.trusted_state_bytes = some ts)
    (h2 : ∀ wp es, ts ≠ TrustedState.epochState wp es) :
    (∃ e, (EpochChange.main env i).outcome = Outcome.error e) ∧
    (EpochChange.main env i).output = [] ∧
    (∀ proof ts' li next_es,
      env.epochChangeProofFromBytes i.epoch_change_proof_bytes = some proof →
      env.verifyAndRatchetInner ts proof = some (TrustedStateChange.epoch ts' li) →
      li.ledger_info.next_epoch_state = some next_es →
      (EpochChange.main env i).outcome =
        Outcome.error EpochError.expectedEpochStateForTrusted) := by
  cases ts with
  | epochState wp es => exact absurd rfl (h2 wp es)
  | waypoint v =>
    cases hp : env.epochChangeProofFromBytes i.epoch_change_proof_bytes with
    | none =>
      have hmain : EpochChange.main env i =
          ⟨[EStep.deserTrustedState, EStep.deserEpochChangeProof],
           Outcome.error EpochError.epochChangeProofDeser, []⟩ := by
        simp only [EpochChange.main, h1, hp]
      rw [hmain]
      refine ⟨⟨_, rfl⟩, rfl, ?_⟩
      intro proof ts' li next_es hp2 _ _
      exact Option.noConfusion hp2
    | some proof =>
      cases hr : env.verifyAndRatchetInner (TrustedState.waypoint v) proof with
      | none =>
        have hmain : EpochChange.main env i =
            ⟨[EStep.deserTrustedState, EStep.deserEpochChangeProof, EStep.ratchet],
             Outcome.error EpochError.ratchetFailed, []⟩ := by
          simp only [EpochChange.main, h1, hp, hr]
        rw [hmain]
        refine ⟨⟨_, rfl⟩, rfl, ?_⟩
        intro proof2 ts' li next_es hp2 hr2 _
        injection hp2 with e
        subst e
        rw [hr] at hr2
        exact Option.noConfusion hr2
      | some change =>
        cases change with
        | version ns =>
          have hmain : EpochChange.main env i =
              ⟨[EStep.deserTrustedState, EStep.deserEpochChangeProof, EStep.ratchet,
                EStep.extractNewCommittee],
               Outcome.error EpochError.expectedEpochChange, []⟩ := by
            simp only [EpochChange.main, h1, hp, hr]
          rw [hmain]
          refine ⟨⟨_, rfl⟩, rfl, ?_⟩
          intro proof2 ts' li next_es hp2 hr2 _
          injection hp2 with e
          subst e
          rw [hr] at hr2
          injection hr2 with e2
          exact TrustedStateChange.noConfusion e2
        | epoch ns li =>
          cases hn : li.ledger_info.next_epoch_state with
          | none =>
            have hmain : EpochChange.main env i =
                ⟨[EStep.deserTrustedState, EStep.deserEpochChangeProof, EStep.ratchet,
                  EStep.extractNewCommittee],
                 Outcome.error EpochError.expectedEpochState, []⟩ := by
              simp only [EpochChange.main, h1, hp, hr, hn]
            rw [hmain]
            refine ⟨⟨_, rfl⟩, rfl, ?_⟩
            intro proof2 ts' li2 next_es hp2 hr2 hn2
            injection hp2 with e
            subst e
            rw [hr] at hr2
            injection hr2 with e2
            injection e2 with e3 e4
            subst e4
            rw [hn] at hn2
            exact Option.noConfusion hn2
          | some next_es =>
            have hmain : EpochChange.main env i =
                ⟨[EStep.deserTrustedState, EStep.deserEpochChangeProof, EStep.ratchet,
                  EStep.extractNewCommittee, EStep.extractPrevCommittee],
                 Outcome.error EpochError.expectedEpochStateForTrusted, []⟩ := by
              simp only [EpochChange.main, h1, hp, hr, hn]
            rw [hmain]
            exact ⟨⟨_, rfl⟩, rfl, fun _ _ _ _ _ _ _ => rfl⟩

/-- Witness for C5 at a concrete environment and input. -/
theorem epoch_change_rejects_non_epoch_witness :
    ∃ e, (EpochChange.main envWaypoint sampleEpochInput).outcome = Outcome.error e :=
  (epoch_change_rejects_non_epoch envWaypoint sampleEpochInput
    (TrustedState.waypoint 5) rfl
    (fun _ _ h => TrustedState.noConfusion h)).1

/-- C10: if ratcheting returns an epoch change whose last applied ledger
header carries no next-epoch state, the epoch-change entry program aborts
at the extraction of the new committee with nothing committed; conversely,
whenever the program succeeds, the last applied ledger header necessarily
declared a next-epoch committee. -/
theorem epoch_change_requires_next_epoch_state (env : Env) (i : EpochChangeInput) :
    (∀ wp es proof ts' li,
      env.trustedStateFromBytes i.trusted_state_bytes =
        some (TrustedState.epochState wp es) →
      env.epochChangeProofFromBytes i.epoch_change_proof_bytes = some proof →
      env.verifyAndRatchetInner (TrustedState.epochState wp es) proof =
        some (TrustedStateChange.epoch ts' li) →
      li.ledger_info.next_epoch_state = none →
      (EpochChange.main env i).outcome = Outcome.error EpochError.expectedEpochState ∧
      (EpochChange.main env i).output = []) ∧
    ((EpochChange.main env i).outcome = Outcome.ok →
      ∃ ts proof ts' li next_es,
        env.trustedStateFromBytes i.trusted_state_bytes = some ts ∧
        env.epochChangeProofFromBytes i.epoch_change_proof_bytes = some proof ∧
        env.verifyAndRatchetInner ts proof = some (TrustedStateChange.epoch ts' li) ∧
        li.ledger_info.next_epoch_state = some next_es) := by
  constructor
  · intro wp es proof ts' li h1 h2 h3 h4
    have hmain : EpochChange.main env i =
        ⟨[EStep.deserTrustedState, EStep.deserEpochChangeProof, EStep.ratchet,
          EStep.extractNewCommittee],
         Outcome.error EpochError.expectedEpochState, []⟩ := by
      simp only [EpochChange.main, h1, h2, h3, h4]
    rw [hmain]
    exact ⟨rfl, rfl⟩
  · intro hok
    cases h1 : env.trustedStateFromBytes i.trusted_state_bytes with
    | none => simp [EpochChange.main, h1] at hok
    | some ts =>
      cases h2 : env.epochChangeProofFromBytes i.epoch_change_proof_bytes with
      | none => simp [EpochChange.main, h1, h2] at hok
      | some proof =>
        cases h3 : env.verifyAndRatchetInner ts proof with
        | none => simp [EpochChange.main, h1, h2, h3] at hok
        | some change =>
          cases change with
          | version ns => simp [EpochChange.main, h1, h2, h3] at hok
          | epoch ns li =>
            cases h4 : li.ledger_info.next_epoch_state with
            | none => simp [EpochChange.main, h1, h2, h3, h4] at hok
            | some next_es => exact ⟨ts, proof, ns, li, next_es, rfl, rfl, h3, h4⟩

/-- Witness for C10 at a concrete environment and input. -/
theorem epoch_change_requires_next_epoch_state_witness :
    (EpochChange.main envNoNext sampleEpochInput).outcome =
      Outcome.error EpochError.expectedEpochState :=
  ((epoch_change_requires_next_epoch_state envNoNext sampleEpochInput).1
    0 sampleEpochState ⟨[sampleLI]⟩ (TrustedState.epochState 1 sampleEpochStateB)
    sampleLINoNext rfl rfl rfl rfl).1

/-- C8: both entry programs are deterministic functions of their input
streams: identical inputs under the same collaborator implementation give
identical traces, outcomes and committed outputs. -/
theorem entrypoints_deterministic (env : Env) (i j : InclusionInput)
    (a b : EpochChangeInput) (hij : i = j) (hab : a = b) :
    Inclusion.main env i = Inclusion.main env j ∧
    EpochChange.main env a = EpochChange.main env b := by
  subst hij
  subst hab
  exact ⟨rfl, rfl⟩

/-- Witness for C8 at a concrete environment and inputs. -/
theorem entrypoints_deterministic_witness :
    Inclusion.main envOK sampleInclusionInput = Inclusion.main envOK sampleInclusionInput ∧
    EpochChange.main envOK sampleEpochInput = EpochChange.main envOK sampleEpochInput :=
  entrypoints_deterministic envOK sampleInclusionInput sampleInclusionInput
    sampleEpochInput sampleEpochInput rfl rfl

/-- Helper: on every input, the trace of the inclusion entry program is a
prefix of the complete step sequence, so steps always run in the fixed
source order. -/
lemma inclusion_trace_take (env : Env) (i : InclusionInput) :
    ∃ k, (Inclusion.main env i).trace = Inclusion.fullTrace.take k := by
  unfold Inclusion.main
  repeat' split
  all_goals first
    | exact ⟨1, rfl⟩ | exact ⟨2, rfl⟩ | exact ⟨3, rfl⟩ | exact ⟨4, rfl⟩
    | exact ⟨5, rfl⟩ | exact ⟨6, rfl⟩ | exact ⟨7, rfl⟩ | exact ⟨8, rfl⟩
    | exact ⟨9, rfl⟩ | exact ⟨10, rfl⟩ | exact ⟨11, rfl⟩

/-- Helper: the inclusion entry program either commits nothing or
succeeds; there is no partial output. -/
lemma inclusion_output_empty_or_ok (env : Env) (i : InclusionInput) :
    (Inclusion.main env i).output = [] ∨ (Inclusion.main env i).outcome = Outcome.ok := by
  unfold Inclusion.main
  repeat' split
  all_goals first | exact Or.inl rfl | exact Or.inr rfl

/-- Helper: full characterization of a successful inclusion run: every
collaborator call succeeded, and the run is the complete trace with the
five public values in order. -/
lemma inclusion_run_ok (env : Env) (i : InclusionInput)
    (h : (Inclusion.main env i).outcome = Outcome.ok) :
    ∃ validator_verifier transaction transaction_proof latest_li sparse_merkle_proof cp root,
      env.validatorVerifierFromBytes i.verified_validator_verifier = some validator_verifier ∧
      env.transactionInfoFromBytes i.transaction_bytes = some transaction ∧
      env.transactionAccumulatorProofFromBytes i.transaction_proof_bytes =
        some transaction_proof ∧
      env.ledgerInfoWithSignaturesFromBytes i.ledger_info_bytes = some latest_li ∧
      env.accumulatorVerify transaction_proof
        latest_li.ledger_info.transaction_accumulator_hash
        (env.transactionInfoHash transaction) i.transaction_index = true ∧
      env.verifySignatures latest_li validator_verifier = true ∧
      env.sparseMerkleProofFromBytes i.sparse_merkle_proof_bytes = some sparse_merkle_proof ∧
      transaction.state_checkpoint = some cp ∧
      env.sparseVerifyByHash sparse_merkle_proof cp i.key i.leaf_value_hash = some root ∧
      Inclusion.main env i =
        ⟨Inclusion.fullTrace, Outcome.ok,
         [(env.validatorVerifierHash validator_verifier).val, root.val,
          latest_li.ledger_info.block_id.val, i.key.val, i.leaf_value_hash.val]⟩ := by
  cases h1 : env.validatorVerifierFromBytes i.verified_validator_verifier with
  | none => simp [Inclusion.main, h1] at h
  | some validator_verifier =>
  cases h2 : env.transactionInfoFromBytes i.transaction_bytes with
  | none => simp [Inclusion.main, h1, h2] at h
  | some transaction =>
  cases h3 : env.transactionAccumulatorProofFromBytes i.transaction_proof_bytes with
  | none => simp [Inclusion.main, h1, h2, h3] at h
  | some transaction_proof =>
  cases h4 : env.ledgerInfoWithSignaturesFromBytes i.ledger_info_bytes with
  | none => simp [Inclusion.main, h1, h2, h3, h4] at h
  | some latest_li =>
  cases h5 : env.accumulatorVerify transaction_proof
      latest_li.ledger_info.transaction_accumulator_hash
      (env.transactionInfoHash transaction) i.transaction_index with
  | false => simp [Inclusion.main, h1, h2, h3, h4, h5] at h
  | true =>
  cases h6 : env.verifySignatures latest_li validator_verifier with
  | false => simp [Inclusion.main, h1, h2, h3, h4, h5, h6] at h
  | true =>
  cases h7 : env.sparseMerkleProofFromBytes i.sparse_merkle_proof_bytes with
  | none => simp [Inclusion.main, h1, h2, h3, h4, h5, h6, h7] at h
  | some sparse_merkle_proof =>
  cases h8 : transaction.state_checkpoint with
  | none => simp [Inclusion.main, h1, h2, h3, h4, h5, h6, h7, h8] at h
  | some cp =>
  cases h9 : env.sparseVerifyByHash sparse_merkle_proof cp i.key i.leaf_value_hash with
  | none => simp [Inclusion.main, h1, h2, h3, h4, h5, h6, h7, h8, from_slice_val, h9] at h
  | some root =>
    refine ⟨validator_verifier, transaction, transaction_proof, latest_li,
      sparse_merkle_proof, cp, root, ?_, ?_, ?_, ?_, ?_, ?_, ?_, ?_, ?_, ?_⟩
    all_goals first
      | rfl
      | assumption
      | simp [Inclusion.main, h1, h2, h3, h4, h5, h6, h7, h8, from_slice_val, h9]

/-- C1: on every input the inclusion entry program attempts its steps in
the fixed source order (the trace is always a prefix of the complete step
sequence, in which committee deserialization precedes accumulator
verification, which precedes signature verification, which precedes sparse
Merkle verification), and the program succeeds only if every
deserialization and all four verification checks succeed, the accumulator
root being read from the deserialized ledger header. -/
theorem inclusion_step_order (env : Env) (i : InclusionInput) :
    (∃ k, (Inclusion.main env i).trace = Inclusion.fullTrace.take k) ∧
    ((Inclusion.main env i).outcome = Outcome.ok →
      (Inclusion.main env i).trace = Inclusion.fullTrace ∧
      ∃ validator_verifier transaction transaction_proof latest_li sparse_merkle_proof cp root,
        env.validatorVerifierFromBytes i.verified_validator_verifier =
          some validator_verifier ∧
        env.transactionInfoFromBytes i.transaction_bytes = some transaction ∧
        env.transactionAccumulatorProofFromBytes i.transaction_proof_bytes =
          some transaction_proof ∧
        env.ledgerInfoWithSignaturesFromBytes i.ledger_info_bytes = some latest_li ∧
        env.accumulatorVerify transaction_proof
          latest_li.ledger_info.transaction_accumulator_hash
          (env.transactionInfoHash transaction) i.transaction_index = true ∧
        env.verifySignatures latest_li validator_verifier = true ∧
        env.sparseMerkleProofFromBytes i.sparse_merkle_proof_bytes =
          some sparse_merkle_proof ∧
        transaction.state_checkpoint = some cp ∧
        env.sparseVerifyByHash sparse_merkle_proof cp i.key i.leaf_value_hash =
          some root) := by
  refine ⟨inclusion_trace_take env i, ?_⟩
  intro hok
  obtain ⟨vv, t, tp, li, sp, cp, root, h1, h2, h3, h4, h5, h6, h7, h8, h9, hmain⟩ :=
    inclusion_run_ok env i hok
  rw [hmain]
  exact ⟨rfl, vv, t, tp, li, sp, cp, root, h1, h2, h3, h4, h5, h6, h7, h8, h9⟩

/-- Witness for C1 at a concrete environment and input. -/
theorem inclusion_step_order_witness :
    (Inclusion.main envOK sampleInclusionInput).trace = Inclusion.fullTrace :=
  ((inclusion_step_order envOK sampleInclusionInput).2 rfl).1

/-- C2: every successful inclusion run commits exactly five values, each
exactly 32 bytes, in the fixed order committee hash, reconstructed
sparse-tree root, ledger block identifier, queried key, queried value
hash; the last two are byte-for-byte the key and leaf value hash read from
the input stream. -/
theorem inclusion_public_values (env : Env) (i : InclusionInput)
    (h : (Inclusion.main env i).outcome = Outcome.ok) :
    (Inclusion.main env i).output.length = 5 ∧
    (∀ b ∈ (Inclusion.main env i).output, b.length = 32) ∧
    (Inclusion.main env i).output[3]? = some i.key.val ∧
    (Inclusion.main env i).output[4]? = some i.leaf_value_hash.val ∧
    ∃ validator_verifier latest_li sparse_merkle_proof cp root,
      env.validatorVerifierFromBytes i.verified_validator_verifier =
        some validator_verifier ∧
      env.ledgerInfoWithSignaturesFromBytes i.ledger_info_bytes = some latest_li ∧
      env.sparseVerifyByHash sparse_merkle_proof cp i.key i.leaf_value_hash = some root ∧
      (Inclusion.main env i).output =
        [(env.validatorVerifierHash validator_verifier).val, root.val,
         latest_li.ledger_info.block_id.val, i.key.val, i.leaf_value_hash.val] := by
  obtain ⟨vv, t, tp, li, sp, cp, root, h1, h2, h3, h4, h5, h6, h7, h8, h9, hmain⟩ :=
    inclusion_run_ok env i h
  rw [hmain]
  refine ⟨rfl, ?_, rfl, rfl, vv, li, sp, cp, root, h1, h4, h9, rfl⟩
  intro b hb
  simp only [List.mem_cons, List.not_mem_nil, or_false] at hb
  rcases hb with hb | hb | hb | hb | hb
  · rw [hb]; exact (env.validatorVerifierHash vv).property
  · rw [hb]; exact root.property
  · rw [hb]; exact li.ledger_info.block_id.property
  · rw [hb]; exact i.key.property
  · rw [hb]; exact i.leaf_value_hash.property

/-- Witness for C2 at a concrete environment and input. -/
theorem inclusion_public_values_witness :
    (Inclusion.main envOK sampleInclusionInput).output.length = 5 :=
  (inclusion_public_values envOK sampleInclusionInput rfl).1

/-- C3: whenever any step of the inclusion entry program fails, the
program aborts with no public commitment at all: the output is empty, so
no prefix of the five-field output is ever emitted. -/
theorem inclusion_abort_commits_nothing (env : Env) (i : InclusionInput)
    (h : ∃ e, (Inclusion.main env i).outcome = Outcome.error e) :
    (Inclusion.main env i).output = [] := by
  obtain ⟨e, he⟩ := h
  rcases inclusion_output_empty_or_ok env i with h0 | h0
  · exact h0
  · rw [h0] at he
    exact Outcome.noConfusion he

/-- Witness for C3 at a concrete environment and input. -/
theorem inclusion_abort_commits_nothing_witness :
    (Inclusion.main envDeserFail sampleInclusionInput).output = [] :=
  inclusion_abort_commits_nothing envDeserFail sampleInclusionInput
    ⟨InclusionError.validatorVerifierDeser, rfl⟩

/-- C6: if the deserialized transaction record carries no state-checkpoint
hash, the inclusion entry program aborts with nothing committed, the
sparse Merkle verification step is never reached, and on the path where
every earlier step succeeded the abort is precisely the
state-checkpoint-missing error. -/
theorem inclusion_missing_checkpoint (env : Env) (i : InclusionInput)
    (t : TransactionInfo)
    (ht : env.transactionInfoFromBytes i.transaction_bytes = some t)
    (hcp : t.state_checkpoint = none) :
    (∃ e, (Inclusion.main env i).outcome = Outcome.error e) ∧
    (Inclusion.main env i).output = [] ∧
    Step.verifySparse ∉ (Inclusion.main env i).trace ∧
    (∀ validator_verifier transaction_proof latest_li sparse_merkle_proof,
      env.validatorVerifierFromBytes i.verified_validator_verifier =
        some validator_verifier →
      env.transactionAccumulatorProofFromBytes i.transaction_proof_bytes =
        some transaction_proof →
      env.ledgerInfoWithSignaturesFromBytes i.ledger_info_bytes = some latest_li →
      env.accumulatorVerify transaction_proof
        latest_li.ledger_info.transaction_accumulator_hash
        (env.transactionInfoHash t) i.transaction_index = true →
      env.verifySignatures latest_li validator_verifier = true →
      env.sparseMerkleProofFromBytes i.sparse_merkle_proof_bytes =
        some sparse_merkle_proof →
      (Inclusion.main env i).outcome =
        Outcome.error InclusionError.stateCheckpointMissing) := by
  cases hv : env.validatorVerifierFromBytes i.verified_validator_verifier with
  | none =>
    have hmain : Inclusion.main env i =
        ⟨[Step.deserCommittee], Outcome.error InclusionError.validatorVerifierDeser, []⟩ := by
      simp only [Inclusion.main, hv]
    rw [hmain]
    refine ⟨⟨_, rfl⟩, rfl, by decide, ?_⟩
    intro vv2 tp2 li2 sp2 hy1 _ _ _ _ _
    exact Option.noConfusion hy1
  | some validator_verifier =>
  cases ha : env.transactionAccumulatorProofFromBytes i.transaction_proof_bytes with
  | none =>
    have hmain : Inclusion.main env i =
        ⟨[Step.deserCommittee, Step.deserTransaction, Step.deserAccumulatorProof],
         Outcome.error InclusionError.accumulatorProofDeser, []⟩ := by
      simp only [Inclusion.main, hv, ht, ha]
    rw [hmain]
    refine ⟨⟨_, rfl⟩, rfl, by decide, ?_⟩
    intro vv2 tp2 li2 sp2 _ hy2 _ _ _ _
    exact Option.noConfusion hy2
  | some transaction_proof =>
  cases hl : env.ledgerInfoWithSignaturesFromBytes i.ledger_info_bytes with
  | none =>
    have hmain : Inclusion.main env i =
        ⟨[Step.deserCommittee, Step.deserTransaction, Step.deserAccumulatorProof,
          Step.deserLedgerInfo],
         Outcome.error InclusionError.ledgerInfoDeser, []⟩ := by
      simp only [Inclusion.main, hv, ht, ha, hl]
    rw [hmain]
    refine ⟨⟨_, rfl⟩, rfl, by decide, ?_⟩
    intro vv2 tp2 li2 sp2 _ _ hy3 _ _ _
    exact Option.noConfusion hy3
  | some latest_li =>
  cases hacc : env.accumulatorVerify transaction_proof
      latest_li.ledger_info.transaction_accumulator_hash
      (env.transactionInfoHash t) i.transaction_index with
  | false =>
    have hmain : Inclusion.main env i =
        ⟨[Step.deserCommittee, Step.deserTransaction, Step.deserAccumulatorProof,
          Step.deserLedgerInfo, Step.verifyAccumulator],
         Outcome.error InclusionError.accumulatorVerifyFailed, []⟩ := by
      simp only [Inclusion.main, hv, ht, ha, hl, hacc]
      simp
    rw [hmain]
    refine ⟨⟨_, rfl⟩, rfl, by decide, ?_⟩
    intro vv2 tp2 li2 sp2 _ hy2 hy3 hy4 _ _
    injection hy2 with e2
    subst e2
    injection hy3 with e3
    subst e3
    rw [hacc] at hy4
    exact Bool.noConfusion hy4
  | true =>
  cases hsig : env.verifySignatures latest_li validator_verifier with
  | false =>
    have hmain : Inclusion.main env i =
        ⟨[Step.deserCommittee, Step.deserTransaction, Step.deserAccumulatorProof,
          Step.deserLedgerInfo, Step.verifyAccumulator, Step.verifySignatures],
         Outcome.error InclusionError.signatureVerifyFailed, []⟩ := by
      simp only [Inclusion.main, hv, ht, ha, hl, hacc, hsig]
      simp
    rw [hmain]
    refine ⟨⟨_, rfl⟩, rfl, by decide, ?_⟩
    intro vv2 tp2 li2 sp2 hy1 _ hy3 _ hy5 _
    injection hy1 with e1
    subst e1
    injection hy3 with e3
    subst e3
    rw [hsig] at hy5
    exact Bool.noConfusion hy5
  | true =>
  cases hsp : env.sparseMerkleProofFromBytes i.sparse_merkle_proof_bytes with
  | none =>
    have hmain : Inclusion.main env i =
        ⟨[Step.deserCommittee, Step.deserTransaction, Step.deserAccumulatorProof,
          Step.deserLedgerInfo, Step.verifyAccumulator, Step.verifySignatures,
          Step.deserSparseProof],
         Outcome.error InclusionError.sparseProofDeser, []⟩ := by
      simp only [Inclusion.main, hv, ht, ha, hl, hacc, hsig, hsp]
      simp
    rw [hmain]
    refine ⟨⟨_, rfl⟩, rfl, by decide, ?_⟩
    intro vv2 tp2 li2 sp2 _ _ _ _ _ hy6
    exact Option.noConfusion hy6
  | some sparse_merkle_proof =>
    have hmain : Inclusion.main env i =
        ⟨[Step.deserCommittee, Step.deserTransaction, Step.deserAccumulatorProof,
          Step.deserLedgerInfo, Step.verifyAccumulator, Step.verifySignatures,
          Step.deserSparseProof, Step.getStateCheckpoint],
         Outcome.error InclusionError.stateCheckpointMissing, []⟩ := by
      simp only [Inclusion.main, hv, ht, ha, hl, hacc, hsig, hsp, hcp]
      simp
    rw [hmain]
    exact ⟨⟨_, rfl⟩, rfl, by decide, fun _ _ _ _ _ _ _ _ _ _ => rfl⟩

/-- Witness for C6 at a concrete environment and input. -/
theorem inclusion_missing_checkpoint_witness :
    (Inclusion.main envNoCp sampleInclusionInput).outcome =
      Outcome.error InclusionError.stateCheckpointMissing :=
  (inclusion_missing_checkpoint envNoCp sampleInclusionInput
    sampleTransactionNoCp rfl rfl).2.2.2 sampleVerifier ⟨[]⟩ sampleLI ⟨none, []⟩
    rfl rfl rfl rfl rfl rfl

/-- C7: on success the inclusion entry program commits the root returned
by the sparse Merkle verification as its second public value, for every
returned root and with no in-circuit comparison against an expected value;
the comparison against the expected state checkpoint is the separate
driver-side check. -/
theorem inclusion_commits_returned_root (env : Env) (i : InclusionInput)
    (validator_verifier : ValidatorVerifier) (transaction : TransactionInfo)
    (transaction_proof : TransactionAccumulatorProof)
    (latest_li : LedgerInfoWithSignatures) (sparse_merkle_proof : SparseMerkleProof)
    (cp root : HashValue)
    (h1 : env.validatorVerifierFromBytes i.verified_validator_verifier =
      some validator_verifier)
    (h2 : env.transactionInfoFromBytes i.transaction_bytes = some transaction)
    (h3 : env.transactionAccumulatorProofFromBytes i.transaction_proof_bytes =
      some transaction_proof)
    (h4 : env.ledgerInfoWithSignaturesFromBytes i.ledger_info_bytes = some latest_li)
    (h5 : env.accumulatorVerify transaction_proof
      latest_li.ledger_info.transaction_accumulator_hash
      (env.transactionInfoHash transaction) i.transaction_index = true)
    (h6 : env.verifySignatures latest_li validator_verifier = true)
    (h7 : env.sparseMerkleProofFromBytes i.sparse_merkle_proof_bytes =
      some sparse_merkle_proof)
    (h8 : transaction.state_checkpoint = some cp)
    (h9 : env.sparseVerifyByHash sparse_merkle_proof cp i.key i.leaf_value_hash =
      some root) :
    (Inclusion.main env i).outcome = Outcome.ok ∧
    (Inclusion.main env i).output[1]? = some root.val ∧
    (driverRootCheck root.val cp.val = true ↔ root = cp) := by
  have hmain : Inclusion.main env i =
      ⟨Inclusion.fullTrace, Outcome.ok,
       [(env.validatorVerifierHash validator_verifier).val, root.val,
        latest_li.ledger_info.block_id.val, i.key.val, i.leaf_value_hash.val]⟩ := by
    simp only [Inclusion.main, h1, h2, h3, h4, h5, h6, h7, h8, from_slice_val, h9]
    simp
  rw [hmain]
  refine ⟨rfl, rfl, ?_⟩
  simp [driverRootCheck, Subtype.ext_iff]

/-- Witness for C7 at a concrete environment and input, where the returned
root differs from the expected checkpoint and the program still succeeds. -/
theorem inclusion_commits_returned_root_witness :
    (Inclusion.main envOK sampleInclusionInput).outcome = Outcome.ok :=
  (inclusion_commits_returned_root envOK sampleInclusionInput sampleVerifier
    sampleTransaction ⟨[]⟩ sampleLI ⟨none, []⟩ hash0 hash2
    rfl rfl rfl rfl rfl rfl rfl rfl rfl).1

/-- C9: the key and leaf value hash are read from the input stream as
fixed 32-byte arrays, so rebuilding digests from them always succeeds and
the two corresponding abort branches of the inclusion entry program are
unreachable for every input. -/
theorem inclusion_from_slice_unreachable (b : HashValue) (env : Env)
    (i : InclusionInput) :
    HashValue.from_slice b.val = some b ∧
    (Inclusion.main env i).outcome ≠
      Outcome.error InclusionError.keyFromSliceFailed ∧
    (Inclusion.main env i).outcome ≠
      Outcome.error InclusionError.leafValueHashFromSliceFailed := by
  refine ⟨from_slice_val b, ?_, ?_⟩
  · intro hcontra
    unfold Inclusion.main at hcontra
    repeat' split at hcontra
    all_goals simp_all [from_slice_val]
  · intro hcontra
    unfold Inclusion.main at hcontra
    repeat' split at hcontra
    all_goals simp_all [from_slice_val]

/-- Witness for C9 at a concrete digest, environment and input. -/
theorem inclusion_from_slice_unreachable_witness :
    HashValue.from_slice hash0.val = some hash0 ∧
    (Inclusion.main envOK sampleInclusionInput).outcome ≠
      Outcome.error InclusionError.keyFromSliceFailed ∧
    (Inclusion.main envOK sampleInclusionInput).outcome ≠
      Outcome.error InclusionError.leafValueHashFromSliceFailed :=
  inclusion_from_slice_unreachable hash0 envOK sampleInclusionInput
